import Mathlib

/-!
Shallow embedding of the two Sequelize dialect data-type modules
(the KingbaseES module and the Dameng `dmdb` module) and proofs about
their documented behaviour.

JavaScript values relevant to these modules are modelled by `JSVal`;
each data-type class instance is modelled by a structure holding the
fields the module's methods read or write, and each method becomes a
Lean function.  Methods that assign to `this` are modelled as state
transformers `State → State × Result`; methods that only read `this`
return the receiver unchanged.  Calls into code owned by the host ORM
(super-class methods, `moment` formatting, `new Date`) are taken as
function parameters, so every theorem quantifies over them.
-/

/-- JavaScript values as far as these modules inspect them: the two
infinities (compared with `===` by the date types), numbers, strings,
booleans, `Date` objects (abstracted to a timestamp), single-byte
buffers, `null` and `undefined`. -/
inductive JSVal where
  | undef
  | nullV
  | posInf
  | negInf
  | num (n : Int)
  | str (s : String)
  | boolV (b : Bool)
  | dateV (t : Int)
  | buf (bytes : List Int)
deriving DecidableEq, Repr

/-- JavaScript truthiness for `JSVal`: `undefined`, `null`, `0`, the
empty string and `false` are falsy; everything else (including both
infinities, `Date` objects and buffers) is truthy. -/
def JSVal.truthy : JSVal → Bool
  | .undef => false
  | .nullV => false
  | .posInf => true
  | .negInf => true
  | .num n => n ≠ 0
  | .str s => s ≠ ""
  | .boolV b => b
  | .dateV _ => true
  | .buf _ => true

/-! ## The host ORM's NUMBER constructor

The KingbaseES integer classes call `super(length)` before stripping
unsupported options.  The abstract NUMBER base class is host-ORM code
that is not part of the two dialect files. -/

/-- Options record accepted by the host's NUMBER constructor, after its
normalisation of a plain number `n` into `{ length: n }`. -/
structure NumberOpts where
  length : JSVal := .undef
  unsigned : JSVal := .undef
  zerofill : JSVal := .undef
  decimals : JSVal := .undef
deriving DecidableEq, Repr

/-- State of an integer/float data-type instance: the fields the
KingbaseES module reads or writes (`options.length` is flattened into
the field `options_length`). -/
structure NumberState where
  key : String
  _length : JSVal
  options_length : JSVal
  _unsigned : JSVal
  _zerofill : JSVal
  _decimals : JSVal
deriving DecidableEq, Repr

/-- Modelled from the spec: the host ORM's abstract NUMBER constructor
(out-of-scope base-class code, not under the two dialect files).  It
stores the caller-supplied options object and copies its `length`,
`unsigned`, `zerofill` and `decimals` entries onto the instance fields
`_length` (and `options.length`), `_unsigned`, `_zerofill`,
`_decimals`. -/
def numberCtor (key : String) (opts : NumberOpts) : NumberState :=
  { key := key
    _length := opts.length
    options_length := opts.length
    _unsigned := opts.unsigned
    _zerofill := opts.zerofill
    _decimals := opts.decimals }

/-- Modelled from the spec: the host NUMBER constructor normalises a
plain (possibly absent) `length` argument into the options record
`{ length }`, as callers that pass a single number hit its
`typeof options === 'number'` branch. -/
def numberCtorOfLength (key : String) (length : JSVal) : NumberState :=
  numberCtor key { length := length }

/-- Embeds `removeUnsupportedIntegerOptions` of the KingbaseES module:
if any of `_length`, `options.length`, `_unsigned`, `_zerofill` is
truthy, a warning is printed and all four are set to `undefined`;
otherwise the instance is left alone. -/
def removeUnsupportedIntegerOptions (dataType : NumberState) : NumberState :=
  if dataType._length.truthy || dataType.options_length.truthy
      || dataType._unsigned.truthy || dataType._zerofill.truthy then
    { dataType with
      _length := .undef
      options_length := .undef
      _unsigned := .undef
      _zerofill := .undef }
  else dataType

/-- Embeds the KingbaseES integer constructors (TINYINT, SMALLINT,
INTEGER, BIGINT, REAL, DOUBLE are all literally
`constructor(length) { super(length); removeUnsupportedIntegerOptions(this); }`),
entered with a fully general options record (the base accepts one). -/
def integerCtor (key : String) (opts : NumberOpts) : NumberState :=
  removeUnsupportedIntegerOptions (numberCtor key opts)

/-- Embeds the same constructors entered with a plain `length`
argument. -/
def integerCtorOfLength (key : String) (length : JSVal) : NumberState :=
  removeUnsupportedIntegerOptions (numberCtorOfLength key length)

def TINYINT.new (opts : NumberOpts) : NumberState := integerCtor "TINYINT" opts

def SMALLINT.new (opts : NumberOpts) : NumberState := integerCtor "SMALLINT" opts

def INTEGER.new (opts : NumberOpts) : NumberState := integerCtor "INTEGER" opts

def BIGINT.new (opts : NumberOpts) : NumberState := integerCtor "BIGINT" opts

def REAL.new (opts : NumberOpts) : NumberState := integerCtor "REAL" opts

def DOUBLE.new (opts : NumberOpts) : NumberState := integerCtor "DOUBLE" opts

def TINYINT.ofLength (length : JSVal) : NumberState := integerCtorOfLength "TINYINT" length

/-- Embeds the KingbaseES FLOAT constructor body: after
`super(length, decimals)`, a truthy `_decimals` clears `_length`,
`options.length` and `_decimals`; a truthy `_unsigned` clears
`_unsigned`; a truthy `_zerofill` clears `_zerofill` (each with a
warning). -/
def FLOAT.new (opts : NumberOpts) : NumberState :=
  let s := numberCtor "FLOAT" opts
  let s :=
    if s._decimals.truthy then
      { s with _length := .undef, options_length := .undef, _decimals := .undef }
    else s
  let s := if s._unsigned.truthy then { s with _unsigned := .undef } else s
  if s._zerofill.truthy then { s with _zerofill := .undef } else s

/-- Embeds the KingbaseES FLOAT constructor entered through its
declared `(length, decimals)` signature with non-object arguments: the
base normalises them into `{ length, decimals }`. -/
def FLOAT.ofArgs (length decimals : JSVal) : NumberState :=
  FLOAT.new { length := length, decimals := decimals }

/-! ## KingbaseES string/binary/boolean/geometry classes

Methods are modelled as `State → State × Result` so that mutation of
the receiver is observable. -/

/-- Receiver state of the KingbaseES STRING and CHAR classes: the only
field their `toSql` reads. -/
structure BinaryFlagState where
  _binary : JSVal
deriving DecidableEq, Repr

/-- Embeds KingbaseES `STRING.prototype.toSql`: `BYTEA` when
`_binary`, otherwise the base class result; the receiver is only
read. -/
def STRING.toSql (superToSql : BinaryFlagState → String) (this : BinaryFlagState) :
    BinaryFlagState × String :=
  (this, if this._binary.truthy then "BYTEA" else superToSql this)

/-- Embeds KingbaseES `CHAR.prototype.toSql` (same body as STRING's). -/
def CHAR.toSql (superToSql : BinaryFlagState → String) (this : BinaryFlagState) :
    BinaryFlagState × String :=
  (this, if this._binary.truthy then "BYTEA" else superToSql this)

/-- Receiver state of the KingbaseES TEXT and BLOB classes: the
`_length` field their `toSql` reads and overwrites. -/
structure LengthState where
  _length : JSVal
deriving DecidableEq, Repr

/-- Embeds KingbaseES `TEXT.prototype.toSql`: a truthy `_length` is
warned about and assigned `undefined` on the receiver; the result is
always the string `TEXT`. -/
def TEXT.toSql (this : LengthState) : LengthState × String :=
  (if this._length.truthy then { _length := .undef } else this, "TEXT")

/-- Embeds KingbaseES `BLOB.prototype.toSql`: a truthy `_length` is
warned about and assigned `undefined` on the receiver; the result is
always the string `BYTEA`. -/
def BLOB.toSql (this : LengthState) : LengthState × String :=
  (if this._length.truthy then { _length := .undef } else this, "BYTEA")

/-- Embeds KingbaseES `BOOLEAN.prototype.toSql`. -/
def BOOLEAN.toSql : String := "BOOLEAN"

/-- Embeds KingbaseES `BOOLEAN.prototype._sanitize` (also installed as
the class's static `parse`): one-byte buffers collapse to their byte,
the strings `true`/`t` and `false`/`f` and the numbers `1`/`0` map to
booleans, everything else passes through. -/
def BOOLEAN.sanitize (value : JSVal) : JSVal :=
  if value ≠ .nullV ∧ value ≠ .undef then
    let value : JSVal := match value with
      | .buf [b] => .num b
      | v => v
    match value with
    | .str s =>
      if s = "true" ∨ s = "t" then .boolV true
      else if s = "false" ∨ s = "f" then .boolV false
      else .str s
    | .num n =>
      if n = 1 then .boolV true
      else if n = 0 then .boolV false
      else .num n
    | v => v
  else value

/-- Receiver state of the KingbaseES GEOMETRY/GEOGRAPHY classes as
read by their `toSql`. -/
structure GeoState where
  key : String
  type : Option String
  srid : Option Int
deriving DecidableEq, Repr

/-- Embeds KingbaseES `GEOMETRY.prototype.toSql`: the key, followed by
`(type)` or `(type,srid)` when a type is set; the receiver is only
read. -/
def GEOMETRY.toSql (this : GeoState) : GeoState × String :=
  (this,
    match this.type with
    | some t =>
      match this.srid with
      | some srid => this.key ++ "(" ++ t ++ "," ++ toString srid ++ ")"
      | none => this.key ++ "(" ++ t ++ ")"
    | none => this.key)

/-! ## KingbaseES HSTORE and the module-level parser cache

`let hstore;` is the one module-level mutable binding of the
KingbaseES file: the HSTORE constructor, `_value` and static `parse`
lazily `require` the hstore codec into it. -/

/-- The module-level mutable state of the KingbaseES file: whether the
`hstore` variable has been assigned the lazily required codec. -/
structure ModuleState where
  hstoreLoaded : Bool
deriving DecidableEq, Repr

/-- Embeds the KingbaseES HSTORE constructor: it loads the hstore
codec into the module-level cache when the cache is empty.  The
receiver gains no fields of its own. -/
def HSTORE.new (_ms : ModuleState) : ModuleState :=
  { hstoreLoaded := true }

/-- Embeds KingbaseES `HSTORE.prototype._value`: it ensures the codec
is cached, then returns `hstore.stringify(value)` (the codec itself is
host/external code, taken as the parameter `hstoreStringify`). -/
def HSTORE.value (hstoreStringify : JSVal → String) (_ms : ModuleState) (value : JSVal) :
    ModuleState × String :=
  ({ hstoreLoaded := true }, hstoreStringify value)

/-- Embeds KingbaseES `HSTORE.prototype._stringify`: the `_value`
result wrapped in single quotes. -/
def HSTORE.stringify (hstoreStringify : JSVal → String) (ms : ModuleState) (value : JSVal) :
    ModuleState × String :=
  let r := HSTORE.value hstoreStringify ms value
  (r.1, "\x27" ++ r.2 ++ "\x27")

/-- Embeds KingbaseES static `HSTORE.parse`: it ensures the codec is
cached, then returns `hstore.parse(value)` (parameter `hstoreParse`). -/
def HSTORE.parseStatic (hstoreParse : String → JSVal) (_ms : ModuleState) (value : String) :
    ModuleState × JSVal :=
  ({ hstoreLoaded := true }, hstoreParse value)

/-! ## KingbaseES DATE and DATEONLY -/

/-- The `options` argument of `_sanitize`, as far as the two date
classes inspect it: only the truthiness of its `raw` entry matters,
and the argument may be absent (`none`). -/
structure SanitizeOpts where
  raw : Bool
deriving DecidableEq, Repr

/-- Condition `(!options || options && !options.raw)` shared by both
`_sanitize` bodies. -/
def sanitizeNotRaw : Option SanitizeOpts → Bool
  | none => true
  | some o => !o.raw

/-- Test `value instanceof Date` on the value model. -/
def JSVal.isDateObj : JSVal → Bool
  | .dateV _ => true
  | _ => false

/-- Models `value.toLowerCase()`: character-wise lowering (the wire
strings involved are ASCII). -/
def jsToLowerCase (s : String) : String := ⟨s.data.map Char.toLower⟩

/-- Embeds KingbaseES `DATEONLY.prototype._stringify`: the infinities
become the strings `Infinity` / `-Infinity`; everything else goes to
the base class (parameter `superStringify`). -/
def DATEONLY.stringify (superStringify : JSVal → String) (value : JSVal) : String :=
  if value = .posInf then "Infinity"
  else if value = .negInf then "-Infinity"
  else superStringify value

/-- Embeds KingbaseES `DATEONLY.prototype._sanitize`: outside raw mode
and for non-infinite values, strings whose lower-casing is
`infinity` / `-infinity` become the corresponding infinity and
everything else goes to the base class (parameter `superSanitize`);
otherwise the value passes through. -/
def DATEONLY.sanitize (superSanitize : JSVal → JSVal) (value : JSVal)
    (options : Option SanitizeOpts) : JSVal :=
  if sanitizeNotRaw options ∧ value ≠ .posInf ∧ value ≠ .negInf then
    match value with
    | .str s =>
      if jsToLowerCase s = "infinity" then .posInf
      else if jsToLowerCase s = "-infinity" then .negInf
      else superSanitize (.str s)
    | v => superSanitize v
  else value

/-- Embeds KingbaseES static `DATEONLY.parse`: exactly the strings
`infinity` and `-infinity` become the infinities; every other value is
returned unchanged. -/
def DATEONLY.parseStatic (value : JSVal) : JSVal :=
  if value = .str "infinity" then .posInf
  else if value = .str "-infinity" then .negInf
  else value

/-- Embeds KingbaseES `DATE.prototype._stringify` (same infinity
handling as DATEONLY's, with its own base fallback). -/
def DATE.stringify (superStringify : JSVal → String) (value : JSVal) : String :=
  if value = .posInf then "Infinity"
  else if value = .negInf then "-Infinity"
  else superStringify value

/-- Embeds KingbaseES `DATE.prototype._sanitize`: outside raw mode,
for truthy non-`Date` non-infinite values, case-insensitive
`infinity` / `-infinity` strings become the infinities and every other
value becomes `new Date(value)` (parameter `newDate`); otherwise the
value passes through. -/
def DATE.sanitize (newDate : JSVal → JSVal) (value : JSVal)
    (options : Option SanitizeOpts) : JSVal :=
  if sanitizeNotRaw options ∧ value.isDateObj = false
      ∧ value.truthy = true ∧ value ≠ .posInf ∧ value ≠ .negInf then
    match value with
    | .str s =>
      if jsToLowerCase s = "infinity" then .posInf
      else if jsToLowerCase s = "-infinity" then .negInf
      else newDate (.str s)
    | v => newDate v
  else value

/-- The static `parse` entry of the KingbaseES DATEONLY class: the
class defines one (`DATEONLY.parseStatic`). -/
def DATEONLY.parseEntry : Option (JSVal → JSVal) := some DATEONLY.parseStatic

/-- Modelled from the spec: the static `parse` entry of the KingbaseES
DATE class.  The class body in the KingbaseES file defines `toSql`,
`validate`, `_stringify` and `_sanitize` but no static `parse`, and
the host ORM's abstract DATE base class (out of scope for the spec,
not under the dialect files) supplies none, so the class has no
static `parse`. -/
def DATE.parseEntry : Option (JSVal → JSVal) := none

/-! ## Wire-type registrations and export tables of the two modules -/

/-- Value stored into `BaseTypes.<Class>.types.<dialect>` by a
registration: a list of wire type names (`null` entries allowed, as in
the KingbaseES ENUM registration), the literal `false` (dmdb UUID and
ENUM), or the KingbaseES RANGE subtype/cast-type tables. -/
inductive TypesValue where
  | names (l : List (Option String))
  | unsupported
  | rangeTables (subtypes castTypes : List (String × String))
deriving DecidableEq, Repr

/-- One `BaseTypes.<className>.types.<dialect> = value` assignment. -/
structure TypeRegistration where
  className : String
  dialect : String
  value : TypesValue
deriving DecidableEq, Repr

/-- Embeds the wire-type registrations performed by the dmdb module
when it is applied to `BaseTypes`, in source order. -/
def dmdbTypeRegistrations : List TypeRegistration :=
  [⟨"DATE", "dm", .names [some "TIMESTAMP"]⟩,
   ⟨"STRING", "dm", .names [some "VAR_STRING"]⟩,
   ⟨"CHAR", "dm", .names [some "STRING"]⟩,
   ⟨"TEXT", "dm", .names [some "BLOB"]⟩,
   ⟨"TINYINT", "dm", .names [some "TINY"]⟩,
   ⟨"SMALLINT", "dm", .names [some "SHORT"]⟩,
   ⟨"MEDIUMINT", "dm", .names [some "INT24"]⟩,
   ⟨"INTEGER", "dm", .names [some "LONG"]⟩,
   ⟨"BIGINT", "dm", .names [some "LONGLONG"]⟩,
   ⟨"FLOAT", "dm", .names [some "FLOAT"]⟩,
   ⟨"TIME", "dm", .names [some "TIME"]⟩,
   ⟨"DATEONLY", "dm", .names [some "DATE"]⟩,
   ⟨"BOOLEAN", "dm", .names [some "TINY"]⟩,
   ⟨"BLOB", "dm", .names [some "TINYBLOB", some "BLOB", some "LONGBLOB"]⟩,
   ⟨"DECIMAL", "dm", .names [some "NEWDECIMAL"]⟩,
   ⟨"UUID", "dm", .unsupported⟩,
   ⟨"ENUM", "dm", .unsupported⟩,
   ⟨"REAL", "dm", .names [some "DOUBLE"]⟩,
   ⟨"DOUBLE", "dm", .names [some "DOUBLE"]⟩,
   ⟨"GEOMETRY", "dm", .names [some "GEOMETRY"]⟩,
   ⟨"JSON", "dm", .names [some "JSON"]⟩]

/-- Embeds the wire-type registrations performed by the KingbaseES
module when it is applied to `BaseTypes`, in source order. -/
def kingbase8TypeRegistrations : List TypeRegistration :=
  [⟨"UUID", "kingbase8", .names [some "uuid"]⟩,
   ⟨"CIDR", "kingbase8", .names [some "cidr"]⟩,
   ⟨"INET", "kingbase8", .names [some "inet"]⟩,
   ⟨"MACADDR", "kingbase8", .names [some "macaddr"]⟩,
   ⟨"TSVECTOR", "kingbase8", .names [some "tsvector"]⟩,
   ⟨"JSON", "kingbase8", .names [some "json"]⟩,
   ⟨"JSONB", "kingbase8", .names [some "jsonb"]⟩,
   ⟨"TIME", "kingbase8", .names [some "time"]⟩,
   ⟨"DATEONLY", "kingbase8", .names [some "date"]⟩,
   ⟨"DECIMAL", "kingbase8", .names [some "numeric"]⟩,
   ⟨"STRING", "kingbase8", .names [some "varchar"]⟩,
   ⟨"TEXT", "kingbase8", .names [some "text"]⟩,
   ⟨"CITEXT", "kingbase8", .names [some "citext"]⟩,
   ⟨"CHAR", "kingbase8", .names [some "char", some "bpchar"]⟩,
   ⟨"BOOLEAN", "kingbase8", .names [some "bool"]⟩,
   ⟨"DATE", "kingbase8", .names [some "timestamptz"]⟩,
   ⟨"TINYINT", "kingbase8", .names [some "int2"]⟩,
   ⟨"SMALLINT", "kingbase8", .names [some "int2"]⟩,
   ⟨"INTEGER", "kingbase8", .names [some "int4"]⟩,
   ⟨"BIGINT", "kingbase8", .names [some "int8"]⟩,
   ⟨"REAL", "kingbase8", .names [some "float4"]⟩,
   ⟨"DOUBLE", "kingbase8", .names [some "float8"]⟩,
   ⟨"BLOB", "kingbase8", .names [some "bytea"]⟩,
   ⟨"GEOMETRY", "kingbase8", .names [some "geometry"]⟩,
   ⟨"GEOGRAPHY", "kingbase8", .names [some "geography"]⟩,
   ⟨"HSTORE", "kingbase8", .names [some "hstore"]⟩,
   ⟨"RANGE", "kingbase8",
     .rangeTables
       [("integer", "int4range"), ("decimal", "numrange"), ("date", "tstzrange"),
        ("dateonly", "daterange"), ("bigint", "int8range")]
       [("integer", "int4"), ("decimal", "numeric"), ("date", "timestamptz"),
        ("dateonly", "date"), ("bigint", "int8")]⟩,
   ⟨"ENUM", "kingbase8", .names [none]⟩]

/-- Embeds the export table returned by the dmdb module: each export
key paired with the name of the `BaseTypes` class the exported class
extends (the export `JSON` is the local class `JSONTYPE`, which
extends `BaseTypes.JSON`). -/
def dmdbExports : List (String × String) :=
  [("ENUM", "ENUM"), ("DATE", "DATE"), ("DATEONLY", "DATEONLY"), ("TIME", "TIME"),
   ("UUID", "UUID"), ("GEOMETRY", "GEOMETRY"), ("DECIMAL", "DECIMAL"),
   ("JSON", "JSON"), ("BOOLEAN", "BOOLEAN")]

/-- Embeds the export table returned by the KingbaseES module: each
export key paired with the name of the `BaseTypes` class the exported
class extends. -/
def kingbase8Exports : List (String × String) :=
  [("DECIMAL", "DECIMAL"), ("BLOB", "BLOB"), ("STRING", "STRING"), ("CHAR", "CHAR"),
   ("TEXT", "TEXT"), ("CITEXT", "CITEXT"), ("TINYINT", "TINYINT"),
   ("SMALLINT", "SMALLINT"), ("INTEGER", "INTEGER"), ("BIGINT", "BIGINT"),
   ("BOOLEAN", "BOOLEAN"), ("DATE", "DATE"), ("DATEONLY", "DATEONLY"),
   ("REAL", "REAL"), ("DOUBLE PRECISION", "DOUBLE"), ("FLOAT", "FLOAT"),
   ("GEOMETRY", "GEOMETRY"), ("GEOGRAPHY", "GEOGRAPHY"), ("HSTORE", "HSTORE"),
   ("RANGE", "RANGE"), ("ENUM", "ENUM")]

/-- Modelled from the spec: name resolution in the host ORM's
`BaseTypes` table, in which the DOUBLE class is also exported under
the alias key `DOUBLE PRECISION`; every other key names its own
class. -/
def resolveBaseTypeName (key : String) : String :=
  if key = "DOUBLE PRECISION" then "DOUBLE" else key

/-! ## dmdb GEOMETRY -/

/-- Embeds `SUPPORTED_GEOMETRY_TYPES` of the dmdb module. -/
def SUPPORTED_GEOMETRY_TYPES : List String := ["POINT", "LINESTRING", "POLYGON"]

/-- State of a dmdb GEOMETRY instance after construction. -/
structure DmGeometryState where
  key : String
  type : Option String
  srid : Option Int
  sqlType : String
deriving DecidableEq, Repr

/-- Test `_.isEmpty(this.type)` for a type that is absent or an empty
string. -/
def geoTypeIsEmpty : Option String → Bool
  | none => true
  | some t => t = ""

/-- Embeds the dmdb GEOMETRY constructor: after the base class stores
`type` and `srid` (and the key `GEOMETRY`), an empty type makes
`sqlType` the key, a supported type makes `sqlType` the type, and any
other type throws
`Supported geometry types are: POINT, LINESTRING, POLYGON`. -/
def dmdbGEOMETRY.new (type : Option String) (srid : Option Int) :
    Except String DmGeometryState :=
  let key := "GEOMETRY"
  if geoTypeIsEmpty type then
    .ok { key := key, type := type, srid := srid, sqlType := key }
  else if (type.getD "") ∈ SUPPORTED_GEOMETRY_TYPES then
    .ok { key := key, type := type, srid := srid, sqlType := type.getD "" }
  else
    .error ("Supported geometry types are: " ++ String.intercalate ", " SUPPORTED_GEOMETRY_TYPES)

/-- Embeds `dmdb GEOMETRY.prototype.toSql`: it returns `sqlType`. -/
def dmdbGEOMETRY.toSql (this : DmGeometryState) : String := this.sqlType

/-! ## dmdb DATE and TIME stringification -/

/-- Embeds the format pattern dmdb `DATE.prototype._stringify` builds
for a truthy `_length`:
the template `YYYY-MM-DD HH:mm:ss.` followed by
`new Array(this._length).fill(\x27S\x27).join()` — `join` *without an
argument*, which joins with commas. -/
def dmdbDATE.fmtPattern (length : Nat) : String :=
  "YYYY-MM-DD HH:mm:ss." ++ String.intercalate "," (List.replicate length "S")

/-- Embeds `dmdb DATE.prototype._stringify` after the moment
conversion: `moment.format` is external (parameter `format`, a
function of the pattern); `_length = 0` is falsy and selects the plain
pattern. -/
def dmdbDATE.stringify (format : String → String) (length : Nat) : String :=
  if length ≠ 0 then format (dmdbDATE.fmtPattern length)
  else format "YYYY-MM-DD HH:mm:ss"

/-- Embeds the format pattern dmdb `TIME.prototype._stringify` builds
for a truthy `_length`: the template `HH:mm:ss.` followed by
`new Array(this._length).fill(\x27S\x27).join(\x27\x27)` — joined with
the empty string. -/
def dmdbTIME.fmtPattern (length : Nat) : String :=
  "HH:mm:ss." ++ String.intercalate "" (List.replicate length "S")

/-- Embeds `dmdb TIME.prototype._stringify` after the moment
conversion. -/
def dmdbTIME.stringify (format : String → String) (length : Nat) : String :=
  if length ≠ 0 then format (dmdbTIME.fmtPattern length)
  else format "HH:mm:ss"

/-! ## Theorems -/

@[simp] theorem JSVal.truthy_undef : JSVal.undef.truthy = false := rfl

/-- Helper: what the shared integer-constructor body guarantees, for
any key. -/
theorem integerCtor_strips (key : String) (opts : NumberOpts) :
    ((integerCtor key opts)._length.truthy = false
      ∧ (integerCtor key opts).options_length.truthy = false
      ∧ (integerCtor key opts)._unsigned.truthy = false
      ∧ (integerCtor key opts)._zerofill.truthy = false)
    ∧ ((opts.length.truthy || opts.unsigned.truthy || opts.zerofill.truthy) = true →
        (integerCtor key opts)._length = .undef
        ∧ (integerCtor key opts).options_length = .undef
        ∧ (integerCtor key opts)._unsigned = .undef
        ∧ (integerCtor key opts)._zerofill = .undef) := by
  cases hl : opts.length.truthy <;> cases hu : opts.unsigned.truthy <;>
    cases hz : opts.zerofill.truthy <;>
      simp [integerCtor, removeUnsupportedIntegerOptions, numberCtor, hl, hu, hz]

/-- Claim C4, counterexample: constructing a KingbaseES TINYINT with
the length argument `0` (falsy in JavaScript) leaves `_length` equal
to `0`, not `undefined`, because `removeUnsupportedIntegerOptions`
only fires on truthy options — refuting the claim that `_length` is
undefined after construction regardless of the constructor
arguments. -/
theorem kingbase8_TINYINT_length_zero_kept :
    (TINYINT.ofLength (JSVal.num 0))._length ≠ JSVal.undef := by decide

/-- Claim C4 (amended): for every KingbaseES integer-family instance
(TINYINT, SMALLINT, INTEGER, BIGINT, REAL, DOUBLE), immediately after
construction the unsupported options `_length`, `options.length`,
`_unsigned` and `_zerofill` are all falsy, and whenever any
constructor-supplied length/unsigned/zerofill option is truthy they
are all `undefined`; construction is total (the constructor body has
no throwing path), so it never throws because of these options. -/
theorem kingbase8_integer_ctor_strips_unsupported_options
    (opts : NumberOpts) (s : NumberState)
    (hs : s ∈ [TINYINT.new opts, SMALLINT.new opts, INTEGER.new opts,
               BIGINT.new opts, REAL.new opts, DOUBLE.new opts]) :
    (s._length.truthy = false ∧ s.options_length.truthy = false
      ∧ s._unsigned.truthy = false ∧ s._zerofill.truthy = false)
    ∧ ((opts.length.truthy || opts.unsigned.truthy || opts.zerofill.truthy) = true →
        s._length = .undef ∧ s.options_length = .undef
          ∧ s._unsigned = .undef ∧ s._zerofill = .undef) := by
  simp only [List.mem_cons, List.mem_singleton, List.not_mem_nil, or_false] at hs
  rcases hs with h | h | h | h | h | h <;> subst h <;>
    first
    | exact integerCtor_strips "TINYINT" opts
    | exact integerCtor_strips "SMALLINT" opts
    | exact integerCtor_strips "INTEGER" opts
    | exact integerCtor_strips "BIGINT" opts
    | exact integerCtor_strips "REAL" opts
    | exact integerCtor_strips "DOUBLE" opts

/-- Witness for the amended claim C4, at a TINYINT built with the
truthy length `11`. -/
theorem kingbase8_integer_ctor_strips_unsupported_options_witness :
    (TINYINT.new { length := JSVal.num 11 })._length = JSVal.undef
      ∧ (TINYINT.new { length := JSVal.num 11 })._unsigned = JSVal.undef := by
  have h := kingbase8_integer_ctor_strips_unsupported_options
    { length := JSVal.num 11 } (TINYINT.new { length := JSVal.num 11 })
    (by simp)
  have h2 := h.2 (by decide)
  exact ⟨h2.1, h2.2.2.1⟩

/-- Claim C5, counterexample: a KingbaseES FLOAT built from the
options object `{ unsigned: false }` (the base constructor accepts an
options object as first argument) still has `_unsigned === false`
after construction, not `undefined`: the constructor only clears a
*truthy* `_unsigned` — refuting the claim that `_unsigned` is
undefined in all cases. -/
theorem kingbase8_FLOAT_unsigned_false_kept :
    (FLOAT.new { unsigned := JSVal.boolV false })._unsigned ≠ JSVal.undef := by decide

/-- Claim C5 (amended): for every KingbaseES FLOAT instance after
construction, `_unsigned` and `_zerofill` are falsy in all cases and
are `undefined` whenever the corresponding supplied option was truthy;
if a truthy decimals option was supplied then `_decimals`, `_length`
and `options.length` are all `undefined`; and with falsy decimals a
supplied length is kept. -/
theorem kingbase8_FLOAT_ctor_spec (opts : NumberOpts) :
    ((FLOAT.new opts)._unsigned.truthy = false
      ∧ (FLOAT.new opts)._zerofill.truthy = false)
    ∧ (opts.unsigned.truthy = true → (FLOAT.new opts)._unsigned = .undef)
    ∧ (opts.zerofill.truthy = true → (FLOAT.new opts)._zerofill = .undef)
    ∧ (opts.decimals.truthy = true →
        (FLOAT.new opts)._decimals = .undef ∧ (FLOAT.new opts)._length = .undef
          ∧ (FLOAT.new opts).options_length = .undef)
    ∧ (opts.decimals.truthy = false →
        (FLOAT.new opts)._length = opts.length
          ∧ (FLOAT.new opts).options_length = opts.length) := by
  cases hd : opts.decimals.truthy <;> cases hu : opts.unsigned.truthy <;>
    cases hz : opts.zerofill.truthy <;>
      simp [FLOAT.new, numberCtor, hd, hu, hz]

/-- Witness for the amended claim C5, at a FLOAT built through the
declared `(length, decimals)` signature with length `10` and decimals
`2`. -/
theorem kingbase8_FLOAT_ctor_spec_witness :
    (FLOAT.ofArgs (JSVal.num 10) (JSVal.num 2))._length = JSVal.undef
      ∧ (FLOAT.ofArgs (JSVal.num 10) (JSVal.num 2))._decimals = JSVal.undef := by
  have h := kingbase8_FLOAT_ctor_spec
    { length := JSVal.num 10, decimals := JSVal.num 2 }
  have h2 := h.2.2.2.1 (by decide)
  exact ⟨h2.2.1, h2.1⟩

/-- Test whether a modelled constructor call threw. -/
def isThrow {α : Type} : Except String α → Bool
  | .error _ => true
  | .ok _ => false

/-- Claim C6: the dmdb GEOMETRY constructor throws exactly when the
resolved geometry type is a non-empty string other than `POINT`,
`LINESTRING`, `POLYGON`; on normal return `sqlType` is the type when
the type is one of those three and the key (`GEOMETRY`) when the type
is empty, and `toSql` returns exactly `sqlType`. -/
theorem dmdb_GEOMETRY_ctor_spec (type : Option String) (srid : Option Int) :
    (isThrow (dmdbGEOMETRY.new type srid) = true ↔
      ∃ t, type = some t ∧ t ≠ "" ∧ t ≠ "POINT" ∧ t ≠ "LINESTRING" ∧ t ≠ "POLYGON")
    ∧ (∀ s, dmdbGEOMETRY.new type srid = .ok s →
        dmdbGEOMETRY.toSql s = s.sqlType
        ∧ (type = some "POINT" ∨ type = some "LINESTRING" ∨ type = some "POLYGON" →
            s.sqlType = type.getD "")
        ∧ (geoTypeIsEmpty type = true → s.sqlType = s.key ∧ s.key = "GEOMETRY")) := by
  cases type with
  | none =>
    refine ⟨by simp [dmdbGEOMETRY.new, geoTypeIsEmpty, isThrow], ?_⟩
    intro s hs
    simp only [dmdbGEOMETRY.new, geoTypeIsEmpty, if_pos] at hs
    rw [Except.ok.injEq] at hs
    subst hs
    simp [dmdbGEOMETRY.toSql]
  | some t =>
    by_cases ht : t = ""
    · subst ht
      refine ⟨by simp [dmdbGEOMETRY.new, geoTypeIsEmpty, isThrow], ?_⟩
      intro s hs
      simp only [dmdbGEOMETRY.new] at hs
      rw [if_pos (show geoTypeIsEmpty (some "") = true from by decide),
        Except.ok.injEq] at hs
      subst hs
      simp [dmdbGEOMETRY.toSql, geoTypeIsEmpty]
    · by_cases hp : t ∈ SUPPORTED_GEOMETRY_TYPES
      · have hmem := hp
        simp only [SUPPORTED_GEOMETRY_TYPES, List.mem_cons,
          List.not_mem_nil, or_false] at hmem
        constructor
        · simp only [dmdbGEOMETRY.new, geoTypeIsEmpty]
          rw [if_neg (by simpa using ht), if_pos (by simpa using hp)]
          simp only [isThrow, Bool.false_eq_true, false_iff]
          rintro ⟨u, hu, -, hu1, hu2, hu3⟩
          rw [Option.some.injEq] at hu
          subst hu
          rcases hmem with h | h | h <;> [exact hu1 h; exact hu2 h; exact hu3 h]
        · intro s hs
          simp only [dmdbGEOMETRY.new, geoTypeIsEmpty] at hs
          rw [if_neg (by simpa using ht), if_pos (by simpa using hp),
            Except.ok.injEq] at hs
          subst hs
          refine ⟨rfl, fun _ => rfl, ?_⟩
          simp [geoTypeIsEmpty, ht]
      · constructor
        · simp only [dmdbGEOMETRY.new, geoTypeIsEmpty]
          rw [if_neg (by simpa using ht), if_neg (by simpa using hp)]
          simp only [isThrow, true_iff]
          have hmem := hp
          simp only [SUPPORTED_GEOMETRY_TYPES, List.mem_cons,
            List.not_mem_nil, or_false, not_or] at hmem
          exact ⟨t, rfl, ht, hmem.1, hmem.2.1, hmem.2.2⟩
        · intro s hs
          simp only [dmdbGEOMETRY.new, geoTypeIsEmpty] at hs
          rw [if_neg (by simpa using ht), if_neg (by simpa using hp)] at hs
          exact absurd hs (by simp)

/-- Witness for claim C6, at the supported type `POINT` with srid
`4326`. -/
theorem dmdb_GEOMETRY_ctor_spec_witness :
    dmdbGEOMETRY.new (some "POINT") (some 4326)
        = Except.ok { key := "GEOMETRY", type := some "POINT", srid := some 4326,
                      sqlType := "POINT" }
      ∧ dmdbGEOMETRY.toSql { key := "GEOMETRY", type := some "POINT", srid := some 4326,
                             sqlType := "POINT" } = "POINT" := by
  have h := (dmdb_GEOMETRY_ctor_spec (some "POINT") (some 4326)).2
    { key := "GEOMETRY", type := some "POINT", srid := some 4326, sqlType := "POINT" }
    (by rfl)
  exact ⟨by rfl, h.1.trans ((h.2.1 (Or.inl rfl)).trans rfl)⟩

/-- Claim C3: each dialect module registers its wire-type mappings
under exactly one key (`dm` for the dmdb module, `kingbase8` for the
KingbaseES module: every registration of each module carries that key,
and each module performs at least one), and in each module's export
table every entry extends the `BaseTypes` class of the corresponding
name (with the host's alias `DOUBLE PRECISION` resolving to its DOUBLE
class). -/
theorem dialect_modules_registration_spec :
    (∀ r ∈ dmdbTypeRegistrations, r.dialect = "dm")
    ∧ (∀ r ∈ kingbase8TypeRegistrations, r.dialect = "kingbase8")
    ∧ dmdbTypeRegistrations ≠ [] ∧ kingbase8TypeRegistrations ≠ []
    ∧ (∀ p ∈ dmdbExports, p.2 = resolveBaseTypeName p.1)
    ∧ (∀ p ∈ kingbase8Exports, p.2 = resolveBaseTypeName p.1) := by
  refine ⟨?_, ?_, ?_, ?_, ?_, ?_⟩ <;> decide

/-- Witness for claim C3, at the dmdb GEOMETRY registration and the
KingbaseES `DOUBLE PRECISION` export. -/
theorem dialect_modules_registration_spec_witness :
    (TypeRegistration.mk "GEOMETRY" "dm" (TypesValue.names [some "GEOMETRY"])).dialect = "dm"
      ∧ ("DOUBLE PRECISION", "DOUBLE").2 = resolveBaseTypeName ("DOUBLE PRECISION", "DOUBLE").1 := by
  exact ⟨dialect_modules_registration_spec.1 _ (by decide),
    dialect_modules_registration_spec.2.2.2.2.2 _ (by decide)⟩

/-- Claim C7, counterexample: the KingbaseES DATE class defines no
static `parse` (its body has only `toSql`, `validate`, `_stringify`
and `_sanitize`, and the abstract base supplies none), so the claim's
assertion that DATE's static parse maps the wire strings
`infinity` / `-infinity` to the infinities is false: there is no such
operation on DATE. -/
theorem kingbase8_DATE_has_no_static_parse : DATE.parseEntry = none := rfl

/-- Claim C7 (amended): for the KingbaseES DATE and DATEONLY types and
`v` among the two infinities, `_stringify v` is `Infinity` /
`-Infinity`; `_sanitize` of any letter-case variant of those strings
(options absent or `raw` falsy) is `v` for both types; DATEONLY's
static `parse` maps the wire strings `infinity` / `-infinity` to `v`,
and parse composed with lowercasing of `_stringify` is the identity on
the two infinities for DATEONLY — while DATE defines no static
`parse`, so the parse and round-trip components hold only for
DATEONLY. -/
theorem kingbase8_date_infinity_handling :
    (∀ f : JSVal → String,
        DATEONLY.stringify f .posInf = "Infinity"
        ∧ DATEONLY.stringify f .negInf = "-Infinity"
        ∧ DATE.stringify f .posInf = "Infinity"
        ∧ DATE.stringify f .negInf = "-Infinity")
    ∧ DATEONLY.parseStatic (.str "infinity") = .posInf
    ∧ DATEONLY.parseStatic (.str "-infinity") = .negInf
    ∧ (∀ (g : JSVal → JSVal) (s : String) (opts : Option SanitizeOpts),
        sanitizeNotRaw opts = true →
          (jsToLowerCase s = "infinity" →
            DATEONLY.sanitize g (.str s) opts = .posInf
              ∧ DATE.sanitize g (.str s) opts = .posInf)
          ∧ (jsToLowerCase s = "-infinity" →
            DATEONLY.sanitize g (.str s) opts = .negInf
              ∧ DATE.sanitize g (.str s) opts = .negInf))
    ∧ (∀ f : JSVal → String,
        DATEONLY.parseStatic (.str (jsToLowerCase (DATEONLY.stringify f .posInf))) = .posInf
        ∧ DATEONLY.parseStatic (.str (jsToLowerCase (DATEONLY.stringify f .negInf))) = .negInf)
    ∧ DATE.parseEntry = none
    ∧ DATEONLY.parseEntry = some DATEONLY.parseStatic := by
  refine ⟨fun f => ⟨rfl, rfl, rfl, rfl⟩, by decide, by decide, ?_, ?_, rfl, rfl⟩
  · intro g s opts hraw
    constructor <;> intro hlow <;>
      (have hne : s ≠ "" := by
        intro he
        rw [he] at hlow
        exact absurd hlow (by decide)) <;>
      (have htr : (JSVal.str s).truthy = true := by simp [JSVal.truthy, hne]) <;>
      constructor <;>
        simp [DATEONLY.sanitize, DATE.sanitize, JSVal.isDateObj, hraw, htr, hlow]
  · intro f
    have h1 : DATEONLY.stringify f .posInf = "Infinity" := rfl
    have h2 : DATEONLY.stringify f .negInf = "-Infinity" := rfl
    rw [h1, h2]
    exact ⟨by decide, by decide⟩

/-- Witness for the amended claim C7, sanitizing the mixed-case string
`InFiNiTy` with no options. -/
theorem kingbase8_date_infinity_handling_witness :
    DATEONLY.sanitize (fun v => v) (.str "InFiNiTy") none = .posInf
      ∧ DATE.sanitize (fun v => v) (.str "InFiNiTy") none = .posInf := by
  exact ((kingbase8_date_infinity_handling.2.2.2.1 (fun v => v) "InFiNiTy" none
    (by decide)).1 (by decide))

/-- Claim C8: evaluation of the dmdb fractional-second patterns.  At
`_length = 3` the DATE pattern comes out as
`YYYY-MM-DD HH:mm:ss.S,S,S` — `new Array(3).fill(S).join()` joins
with commas — while TIME builds `HH:mm:ss.SSS` with `join()` on the
empty string; the two only agree at length 1. -/
theorem dmdb_DATE_stringify_comma_divergence :
    dmdbDATE.fmtPattern 3 = "YYYY-MM-DD HH:mm:ss.S,S,S"
    ∧ dmdbTIME.fmtPattern 3 = "HH:mm:ss.SSS"
    ∧ dmdbDATE.fmtPattern 3 ≠ "YYYY-MM-DD HH:mm:ss.SSS"
    ∧ dmdbDATE.fmtPattern 1 = "YYYY-MM-DD HH:mm:ss.S"
    ∧ dmdbTIME.fmtPattern 1 = "HH:mm:ss.S"
    ∧ (∀ format : String → String,
        dmdbDATE.stringify format 3 = format "YYYY-MM-DD HH:mm:ss.S,S,S"
        ∧ dmdbTIME.stringify format 3 = format "HH:mm:ss.SSS") := by
  refine ⟨by decide, by decide, by decide, by decide, by decide, fun format => ?_⟩
  have h1 : dmdbDATE.fmtPattern 3 = "YYYY-MM-DD HH:mm:ss.S,S,S" := by decide
  have h2 : dmdbTIME.fmtPattern 3 = "HH:mm:ss.SSS" := by decide
  exact ⟨by rw [dmdbDATE.stringify, if_pos (by decide), h1],
    by rw [dmdbTIME.stringify, if_pos (by decide), h2]⟩

/-- Claim C1, counterexample: `TEXT.prototype.toSql` called on a TEXT
instance with `_length = 5` assigns `undefined` to the receiver's
`_length`, so the call is not a pure value transformation: it modifies
the receiver. -/
theorem kingbase8_TEXT_toSql_mutates_receiver :
    (TEXT.toSql { _length := JSVal.num 5 }).1 ≠ { _length := JSVal.num 5 } := by decide

/-- Claim C1 (amended): the modelled public operations are synchronous
deterministic value transformations (each is a function of the
receiver state, module state and arguments); none mutates the
receiver except `TEXT.toSql` and `BLOB.toSql`, which set the
receiver's `_length` to `undefined` exactly when it is truthy, and
none touches state outside the receiver except the HSTORE operations,
which only set the module-level hstore cache and whose results do not
depend on it; every call with the same receiver state and arguments
returns the same result. -/
theorem kingbase8_operations_mutation_profile :
    (∀ (f : BinaryFlagState → String) (s : BinaryFlagState), (STRING.toSql f s).1 = s)
    ∧ (∀ (f : BinaryFlagState → String) (s : BinaryFlagState), (CHAR.toSql f s).1 = s)
    ∧ (∀ s : GeoState, (GEOMETRY.toSql s).1 = s)
    ∧ (∀ s : LengthState, (TEXT.toSql s).2 = "TEXT" ∧ (BLOB.toSql s).2 = "BYTEA")
    ∧ (∀ s : LengthState,
        (TEXT.toSql s).1 = (if s._length.truthy then { _length := JSVal.undef } else s)
        ∧ (BLOB.toSql s).1 = (if s._length.truthy then { _length := JSVal.undef } else s))
    ∧ (∀ s : LengthState, s._length.truthy = true →
        (TEXT.toSql s).1 ≠ s ∧ (BLOB.toSql s).1 ≠ s)
    ∧ (∀ s : LengthState, s._length.truthy = false →
        (TEXT.toSql s).1 = s ∧ (BLOB.toSql s).1 = s)
    ∧ (∀ (f : JSVal → String) (ms ms2 : ModuleState) (v : JSVal),
        (HSTORE.stringify f ms v).2 = (HSTORE.stringify f ms2 v).2)
    ∧ (∀ (f : JSVal → String) (ms : ModuleState) (v : JSVal),
        (HSTORE.stringify f ms v).1 = { hstoreLoaded := true }) := by
  refine ⟨fun f s => rfl, fun f s => rfl, fun s => rfl, fun s => ⟨rfl, rfl⟩,
    fun s => ⟨rfl, rfl⟩, ?_, ?_, fun f ms ms2 v => rfl, fun f ms v => rfl⟩
  · intro s h
    have hne : s._length ≠ JSVal.undef := by
      intro he
      rw [he] at h
      exact absurd h (by decide)
    constructor <;>
      · simp only [TEXT.toSql, BLOB.toSql, h, if_true]
        intro heq
        exact hne (congrArg LengthState._length heq).symm
  · intro s h
    simp [TEXT.toSql, BLOB.toSql, h]

/-- Witness for the amended claim C1, at a TEXT/BLOB receiver with the
truthy `_length = 5`. -/
theorem kingbase8_operations_mutation_profile_witness :
    (TEXT.toSql { _length := JSVal.num 5 }).1 ≠ ({ _length := JSVal.num 5 } : LengthState)
      ∧ (BLOB.toSql { _length := JSVal.num 0 }).1 = ({ _length := JSVal.num 0 } : LengthState) := by
  exact ⟨(kingbase8_operations_mutation_profile.2.2.2.2.2.1
      { _length := JSVal.num 5 } (by decide)).1,
    (kingbase8_operations_mutation_profile.2.2.2.2.2.2.1
      { _length := JSVal.num 0 } (by decide)).2⟩

/-- Claim C2, counterexample: constructing a KingbaseES HSTORE when
the module-level `hstore` cache is still empty writes the lazily
required codec into that module-level mutable variable, refuting the
claim that no operation reads or writes a module-level mutable
variable. -/
theorem kingbase8_HSTORE_ctor_writes_module_cache :
    HSTORE.new { hstoreLoaded := false } ≠ { hstoreLoaded := false } := by decide

/-- Claim C2 (amended): the module's only state beyond per-call
configuration is the module-level hstore parser cache: the HSTORE
constructor, `_value` (hence `_stringify` and `_bindParam`) and static
`parse` set it to loaded — idempotently, and with return values that
never depend on it — while no other operation reads or writes
module-level mutable state, and after the module's initial
registration no operation mutates the host's BaseTypes classes or
their prototypes. -/
theorem kingbase8_module_state_is_hstore_cache :
    (∀ ms, HSTORE.new ms = { hstoreLoaded := true })
    ∧ (∀ (f : JSVal → String) (ms : ModuleState) (v : JSVal),
        (HSTORE.value f ms v).1 = { hstoreLoaded := true }
        ∧ (HSTORE.value f ms v).2 = f v
        ∧ (HSTORE.stringify f ms v).1 = { hstoreLoaded := true })
    ∧ (∀ (g : String → JSVal) (ms : ModuleState) (v : String),
        (HSTORE.parseStatic g ms v).1 = { hstoreLoaded := true }
        ∧ (HSTORE.parseStatic g ms v).2 = g v)
    ∧ (∀ ms, HSTORE.new (HSTORE.new ms) = HSTORE.new ms) :=
  ⟨fun _ => rfl, fun _ _ _ => ⟨rfl, rfl, rfl⟩, fun _ _ _ => ⟨rfl, rfl⟩, fun _ => rfl⟩
